import Mathlib

/-!
Shallow embedding of the visibility / authorization logic of the blogicum
application (`src/blogicum/blog/views.py`, together with the URL surface in
`src/blogicum/blog/urls.py` and `src/blogicum/blogicum/urls.py`).

Timestamps are modelled as natural numbers; `datetime.now()` at a given moment
is a `Nat` parameter.  Database rows are records in lists; Django's
`QuerySet.filter` over concrete field lookups becomes `List.filter`, and
`get_object_or_404` becomes `List.find?` with `none` meaning HTTP 404,
following the foreign-key join semantics of the two `category__...` lookups
(an inner join: rows with a NULL category foreign key do not match).
-/

namespace Blogicum

/-- A user row (`django.contrib.auth` user): only the fields the views consult. -/
structure User where
  id : Nat
  username : String
deriving DecidableEq, Repr

/-- A category row (`blog.models.Category` as used by the views and admin):
`slug` is the unique public identifier, `is_published` the publication flag. -/
structure Category where
  id : Nat
  slug : String
  is_published : Bool
deriving DecidableEq, Repr

/-- A post row (`blog.models.Post` as used by the views and admin): `author`
and `category` are foreign keys held as ids, `category` nullable. -/
structure Post where
  id : Nat
  author : Nat
  pub_date : Nat
  is_published : Bool
  category : Option Nat
deriving DecidableEq, Repr

/-- A comment row (`blog.models.Comment` as used by the views and admin):
`post` and `author` are foreign keys held as ids. -/
structure Comment where
  id : Nat
  text : String
  author : Nat
  post : Nat
  created_at : Nat
deriving DecidableEq, Repr

/-- The entity store: the four tables the blog views read and write. -/
structure Store where
  users : List User
  categories : List Category
  posts : List Post
  comments : List Comment
deriving DecidableEq, Repr

/-- The requester: Django's `request.user`, either `AnonymousUser`
(`is_authenticated == False`) or an authenticated `User`. -/
inductive Viewer where
  | anon : Viewer
  | auth : User → Viewer
deriving DecidableEq, Repr

/-- The observable outcome of a request, as the view layer surfaces it:
a rendered object (HTTP 200), `Http404`, a redirect to `blog:post_detail`
(`redirect('blog:post_detail', pk=...)`, HTTP 302), `PermissionDenied`
(HTTP 403), or the login redirect of an unauthenticated access. -/
inductive Resp (α : Type) where
  | ok : α → Resp α
  | notFound : Resp α
  | redirectPostDetail : Nat → Resp α
  | forbidden : Resp α
  | loginRedirect : Resp α
deriving DecidableEq, Repr

/-- `get_object_or_404(User, username=...)` (views.py 40, 197). -/
def findUser (users : List User) (uname : String) : Option User :=
  users.find? (fun u => u.username == uname)

/-- `get_object_or_404(Post, pk=...)` / `Post.objects.get(id=...)`
(views.py 154, 182-185, 264, 271). -/
def findPost (posts : List Post) (pk : Nat) : Option Post :=
  posts.find? (fun p => p.id == pk)

/-- Primary-key lookup of a category row, used to resolve the
`category__...` joins. -/
def findCategoryById (cats : List Category) (cid : Nat) : Option Category :=
  cats.find? (fun c => c.id == cid)

/-- `get_object_or_404(Comment, pk=comment_id, post_id=pk)`
(views.py 64-70 `CommentMixin.get_object` and 294-300
`CommentDeleteView.get_object`): both URL parameters must match the row. -/
def findComment (comments : List Comment) (commentId pk : Nat) : Option Comment :=
  comments.find? (fun c => c.id == commentId && c.post == pk)

/-- The filter lookup `category__is_published=True` (views.py 101, 128, 219,
227): an inner join on the nullable `category` foreign key, so a post with a
NULL category matches no row and is filtered out. -/
def categoryPublishedJoin (cats : List Category) (p : Post) : Bool :=
  match p.category with
  | none => false
  | some cid =>
    match findCategoryById cats cid with
    | none => false
    | some c => c.is_published

/-- The filter lookups `category__slug=slug, category__is_published=True`
(views.py 127-128): the single joined category row must carry the requested
slug and be published. -/
def categorySlugPublishedJoin (cats : List Category) (slug : String) (p : Post) : Bool :=
  match p.category with
  | none => false
  | some cid =>
    match findCategoryById cats cid with
    | none => false
    | some c => c.slug == slug && c.is_published

/-- `object.author == self.request.user` (views.py 31, 155):
`AnonymousUser` never equals a stored user; users compare by primary key. -/
def isViewerAuthor (viewer : Viewer) (author : Nat) : Bool :=
  match viewer with
  | .anon => false
  | .auth u => author == u.id

/-- `self.request.user.is_authenticated && self.request.user.username == uname`
(views.py 208-209, 43-46). -/
def viewerUsernameIs (viewer : Viewer) (uname : String) : Bool :=
  match viewer with
  | .anon => false
  | .auth u => u.username == uname

/-- The ordering `-pub_date` of `ListViewMixin` (views.py 51): `a` precedes
`b` when `a.pub_date` is the later (or equal) one. -/
def pubDateGe (a b : Post) : Prop := b.pub_date ≤ a.pub_date

instance : DecidableRel pubDateGe := fun a b => Nat.decLe b.pub_date a.pub_date

instance : IsTotal Post pubDateGe := ⟨fun a b => Nat.le_total b.pub_date a.pub_date⟩

instance : IsTrans Post pubDateGe := ⟨fun _ _ _ h1 h2 => Nat.le_trans h2 h1⟩

/-- `order_by('-pub_date')`, applied by the generic list view from
`ListViewMixin.ordering` (views.py 51). -/
def orderByPubDateDesc : List Post → List Post :=
  List.insertionSort pubDateGe

/-- Modelled from the spec: `models.py` is not among the sources; the spec
orders every post listing by `pub_date` descending, so the Post model's
default `Meta.ordering` is taken to be `-pub_date`, and the list views whose
`get_queryset` does not call `order_by` (`CategoryListView`,
`ProfileListView`) inherit this ordering from the model. -/
def postDefaultOrder : List Post → List Post :=
  List.insertionSort pubDateGe

/-- Django pagination at `per` items per page, pages numbered from 1
(`paginate_by` of views.py 52, 194). -/
def paginate (per page : Nat) (xs : List Post) : List Post :=
  (xs.drop ((page - 1) * per)).take per

/-! ### Query resolvers, translated view by view -/

/-- `PostListView.queryset` (views.py 94-105).  The class attribute is built
when the class body executes, so `date_now()` is read once at module load:
`loadTime` is that captured instant, and `pub_date__lt` compares strictly
against it. -/
def postListQueryset (loadTime : Nat) (s : Store) : List Post :=
  s.posts.filter (fun p =>
    decide (p.pub_date < loadTime) && p.is_published &&
      categoryPublishedJoin s.categories p)

/-- The index listing after the generic view applies `ordering = '-pub_date'`
to `PostListView.queryset`. -/
def indexList (loadTime : Nat) (s : Store) : List Post :=
  orderByPubDateDesc (postListQueryset loadTime s)

/-- One page of the index listing (`paginate_by = 10`). -/
def indexPage (loadTime : Nat) (s : Store) (page : Nat) : List Post :=
  paginate 10 page (indexList loadTime s)

/-- The index listing as served for a request arriving at `reqTime`: the
handler reruns the stored queryset, whose `pub_date__lt` bound was captured
at `loadTime`, so `reqTime` does not enter the result. -/
def indexPageAtRequest (loadTime _reqTime : Nat) (s : Store) (page : Nat) :
    List Post :=
  indexPage loadTime s page

/-- `CategoryListView.get_queryset` (views.py 122-131): here `date_now()` is
called inside the method, hence at request time `now`. -/
def categoryQueryset (now : Nat) (s : Store) (slug : String) : List Post :=
  s.posts.filter (fun p =>
    decide (p.pub_date < now) && p.is_published &&
      categorySlugPublishedJoin s.categories slug p)

/-- `get_object_or_404(Category, slug=..., is_published=True)`
(views.py 114-117). -/
def categoryGetOr404 (s : Store) (slug : String) : Option Category :=
  s.categories.find? (fun c => c.slug == slug && c.is_published)

/-- The category listing in model default order (spec-modelled `-pub_date`,
see `postDefaultOrder`): `CategoryListView.get_queryset` applies no
`order_by` of its own. -/
def categoryListFull (now : Nat) (s : Store) (slug : String) : List Post :=
  postDefaultOrder (categoryQueryset now s slug)

/-- The category page: `get_context_data` 404s unless a published category
carries the slug; otherwise the page renders that category and one
10-per-page slice of the filtered posts. -/
def categoryPage (now : Nat) (s : Store) (slug : String) (page : Nat) :
    Resp (Category × List Post) :=
  match categoryGetOr404 s slug with
  | none => .notFound
  | some c => .ok (c, paginate 10 page (categoryListFull now s slug))

/-- `PostDetailView.get_object` (views.py 152-157): 404 when the id is
absent, and again when the post is unpublished and the viewer is not its
author.  No other condition is checked. -/
def postDetailGetObject (s : Store) (viewer : Viewer) (pk : Nat) : Resp Post :=
  match findPost s.posts pk with
  | none => .notFound
  | some post =>
    if post.is_published || isViewerAuthor viewer post.author then .ok post
    else .notFound

/-- `ProfileListView.get_queryset` (views.py 206-230): the profile owner
(authenticated, equal username) receives all their posts; any other viewer,
anonymous included, receives the `is_published=True,
category__is_published=True` filter — with no `pub_date` condition. -/
def profileQueryset (s : Store) (viewer : Viewer) (uname : String) :
    Resp (List Post) :=
  match findUser s.users uname with
  | none => .notFound
  | some user =>
    if viewerUsernameIs viewer user.username then
      .ok (s.posts.filter (fun p => p.author == user.id))
    else
      .ok (s.posts.filter (fun p =>
        p.author == user.id && p.is_published &&
          categoryPublishedJoin s.categories p))

/-- The profile listing in model default order (spec-modelled `-pub_date`,
see `postDefaultOrder`): `ProfileListView.get_queryset` applies no
`order_by` of its own. -/
def profileListFull (s : Store) (viewer : Viewer) (uname : String) :
    Resp (List Post) :=
  match profileQueryset s viewer uname with
  | .ok xs => .ok (postDefaultOrder xs)
  | .notFound => .notFound
  | .redirectPostDetail pk => .redirectPostDetail pk
  | .forbidden => .forbidden
  | .loginRedirect => .loginRedirect

/-- One 10-per-page slice of the profile listing
(`ProfileListView.paginate_by = 10`, views.py 194). -/
def profilePage (s : Store) (viewer : Viewer) (uname : String) (page : Nat) :
    Resp (List Post) :=
  match profileListFull s viewer uname with
  | .ok xs => .ok (paginate 10 page xs)
  | .notFound => .notFound
  | .redirectPostDetail pk => .redirectPostDetail pk
  | .forbidden => .forbidden
  | .loginRedirect => .loginRedirect

/-- `ProfileListView.get_context_data` (views.py 199-204): the `'post'`
context entry is `Post.objects.filter(author=user)` — every post of the
profile user, with no publication, date or category condition, for every
viewer (the method never consults `request.user`; the parameter is kept to
state viewer-independence). -/
def profileContextPost (s : Store) (_viewer : Viewer) (uname : String) :
    Resp (List Post) :=
  match findUser s.users uname with
  | none => .notFound
  | some user => .ok (s.posts.filter (fun p => p.author == user.id))

/-! ### Access guards and mutating views -/

/-- The dispatch of `OnlyAuthorMixin` (views.py 26-34) on the post edit and
delete views (views.py 170-186).  `UserPassesTestMixin` runs `test_func`
first: for an unauthenticated viewer it returns `None` (falsy), so
`handle_no_permission` redirects to `blog:post_detail` with the URL's `pk`;
for an authenticated viewer `get_object` resolves the post (`Http404` when
absent) and the author comparison decides between proceeding and the same
redirect. -/
def postEditDispatch (s : Store) (viewer : Viewer) (pk : Nat) : Resp Post :=
  match viewer with
  | .anon => .redirectPostDetail pk
  | .auth u =>
    match findPost s.posts pk with
    | none => .notFound
    | some post =>
      if post.author == u.id then .ok post
      else .redirectPostDetail pk

/-- The row update a successful `UpdateView` performs: the submitted form
data, abstracted as a function `f` on the row, replaces the post with the
matching id. -/
def updatePostIn (posts : List Post) (pk : Nat) (f : Post → Post) : List Post :=
  posts.map (fun p => if p.id == pk then f p else p)

/-- `PostUpdateView` (views.py 170-173) as a store transformer: the guard
decides, and only the `ok` branch writes. -/
def postUpdateRun (s : Store) (viewer : Viewer) (pk : Nat) (f : Post → Post) :
    Resp Post × Store :=
  match postEditDispatch s viewer pk with
  | .ok post => (.ok (f post), { s with posts := updatePostIn s.posts pk f })
  | .notFound => (.notFound, s)
  | .redirectPostDetail k => (.redirectPostDetail k, s)
  | .forbidden => (.forbidden, s)
  | .loginRedirect => (.loginRedirect, s)

/-- `PostDeleteView` (views.py 176-186) as a store transformer: on success
the post row is removed and its comments cascade away. -/
def postDeleteRun (s : Store) (viewer : Viewer) (pk : Nat) :
    Resp Post × Store :=
  match postEditDispatch s viewer pk with
  | .ok post =>
    (.ok post,
      { s with
        posts := s.posts.filter (fun p => !(p.id == pk)),
        comments := s.comments.filter (fun c => !(c.post == pk)) })
  | .notFound => (.notFound, s)
  | .redirectPostDetail k => (.redirectPostDetail k, s)
  | .forbidden => (.forbidden, s)
  | .loginRedirect => (.loginRedirect, s)

/-- The dispatch of `OnlyAuthorMixin` on the comment edit and delete views
(views.py 282-300): `test_func` resolves the comment through the
two-parameter lookup of `CommentMixin.get_object` /
`CommentDeleteView.get_object` (`Http404` when no row matches both ids)
before comparing authors; an unauthenticated viewer is redirected to the
post detail page without any lookup. -/
def commentEditDispatch (s : Store) (viewer : Viewer) (pk commentId : Nat) :
    Resp Comment :=
  match viewer with
  | .anon => .redirectPostDetail pk
  | .auth u =>
    match findComment s.comments commentId pk with
    | none => .notFound
    | some c =>
      if c.author == u.id then .ok c
      else .redirectPostDetail pk

/-- The row update a successful `CommentUpdateView` performs (its form edits
`text` only; `f` abstracts the submitted data). -/
def updateCommentIn (comments : List Comment) (commentId : Nat)
    (f : Comment → Comment) : List Comment :=
  comments.map (fun c => if c.id == commentId then f c else c)

/-- `CommentUpdateView` (views.py 282-285) as a store transformer. -/
def commentUpdateRun (s : Store) (viewer : Viewer) (pk commentId : Nat)
    (f : Comment → Comment) : Resp Comment × Store :=
  match commentEditDispatch s viewer pk commentId with
  | .ok c =>
    (.ok (f c), { s with comments := updateCommentIn s.comments commentId f })
  | .notFound => (.notFound, s)
  | .redirectPostDetail k => (.redirectPostDetail k, s)
  | .forbidden => (.forbidden, s)
  | .loginRedirect => (.loginRedirect, s)

/-- `CommentDeleteView` (views.py 288-311) as a store transformer. -/
def commentDeleteRun (s : Store) (viewer : Viewer) (pk commentId : Nat) :
    Resp Comment × Store :=
  match commentEditDispatch s viewer pk commentId with
  | .ok c =>
    (.ok c, { s with comments := s.comments.filter (fun d => !(d.id == commentId)) })
  | .notFound => (.notFound, s)
  | .redirectPostDetail k => (.redirectPostDetail k, s)
  | .forbidden => (.forbidden, s)
  | .loginRedirect => (.loginRedirect, s)

/-- The dispatch of `OnlyUserMixin` (views.py 37-46) on `ProfileUpdateView`
(views.py 240-253).  Unlike `OnlyAuthorMixin`, `OnlyUserMixin` overrides no
`handle_no_permission`, so Django's `AccessMixin` default applies when
`test_func` is falsy: an unauthenticated viewer is sent to the login page,
an authenticated one gets `PermissionDenied` (HTTP 403).  `test_func`
resolves the target user by username (`Http404` when absent) and compares
usernames. -/
def profileUpdateDispatch (s : Store) (viewer : Viewer) (uname : String) :
    Resp User :=
  match viewer with
  | .anon => .loginRedirect
  | .auth vu =>
    match findUser s.users uname with
    | none => .notFound
    | some u =>
      if u.username == vu.username then .ok u
      else .forbidden

/-- A comment-creation form body as submitted by the client.  Modelled from
the spec for the field surface: `forms.py` is not among the sources; the
spec says authorship and the post binding are "never client-settable", so
the body carries the comment text together with whatever author / post
values the client attempts to smuggle in. -/
structure CommentFormBody where
  text : String
  authorAttempt : Option Nat
  postAttempt : Option Nat
deriving DecidableEq, Repr

/-- The unsaved instance as the bound form would populate it, before
`form_valid` runs: client-attempted values land in the row. -/
def commentInstanceOfBody (body : CommentFormBody) (newId now : Nat) : Comment :=
  { id := newId, text := body.text,
    author := body.authorAttempt.getD 0,
    post := body.postAttempt.getD 0,
    created_at := now }

/-- `CommentCreateView.form_valid` (views.py 273-276): the server overwrites
`instance.author` with `request.user` and `instance.post` with the post
resolved from the URL's `pk`, discarding any client-attempted values. -/
def commentFormValid (u : User) (pk : Nat) (inst : Comment) : Comment :=
  { inst with author := u.id, post := pk }

/-- `CommentCreateView` (views.py 256-279) as a store transformer.  Its
`dispatch` override resolves the post first (`Http404` when `pk` does not
resolve), then `super().dispatch` runs `LoginRequiredMixin` (login redirect
for an unauthenticated viewer); on success the comment built by
`form_valid` is appended. -/
def commentCreateRun (s : Store) (viewer : Viewer) (pk : Nat)
    (body : CommentFormBody) (newId now : Nat) : Resp Comment × Store :=
  match findPost s.posts pk with
  | none => (.notFound, s)
  | some _ =>
    match viewer with
    | .anon => (.loginRedirect, s)
    | .auth u =>
      let c := commentFormValid u pk (commentInstanceOfBody body newId now)
      (.ok c, { s with comments := s.comments ++ [c] })

/-! ### The spec's visibility contract, for comparison with the code -/

/-- The public part of the spec's visibility contract, written from the
spec's words (spec §4.1) for comparison with the code: visible to a
non-author viewer only if `is_published`, `pub_date ≤ now`, and the category
is absent or published. -/
def postPubliclyVisibleSpec (now : Nat) (cats : List Category) (p : Post) : Bool :=
  p.is_published && decide (p.pub_date ≤ now) &&
    (match p.category with
     | none => true
     | some cid =>
       match findCategoryById cats cid with
       | none => true
       | some c => c.is_published)

/-- The spec's full `isPostVisible(post, viewer)` (spec §4.1), written from
the spec's words: author bypass, otherwise the public rule. -/
def isPostVisibleSpec (now : Nat) (cats : List Category) (viewer : Viewer)
    (p : Post) : Bool :=
  isViewerAuthor viewer p.author || postPubliclyVisibleSpec now cats p

/-! ### Concrete rows used by counterexamples and witnesses -/

/-- Sample user. -/
def alice : User := { id := 1, username := "alice" }

/-- Sample user. -/
def bob : User := { id := 2, username := "bob" }

/-- Sample published category. -/
def catTech : Category := { id := 1, slug := "tech", is_published := true }

/-- Sample unpublished category. -/
def catAttic : Category := { id := 2, slug := "attic", is_published := false }

/-- A published post dated in the future (`pub_date` 1 against a current
time of 0), authored by alice, with no category. -/
def pFuture : Post :=
  { id := 1, author := 1, pub_date := 1, is_published := true, category := none }

/-- Store exercising the post-detail view. -/
def storeDetail : Store :=
  { users := [alice, bob], categories := [catTech], posts := [pFuture],
    comments := [] }

/-- C1 is false on the code: at time 0 the post `pFuture` (published,
`pub_date` in the future) is not publicly visible by the claim's rule and
the viewer bob is not its author, yet `PostDetailView.get_object` serves
the post instead of raising `Http404`. -/
theorem detail_future_post_served_to_non_author :
    postPubliclyVisibleSpec 0 storeDetail.categories pFuture = false ∧
    isViewerAuthor (.auth bob) pFuture.author = false ∧
    postDetailGetObject storeDetail (.auth bob) pFuture.id = .ok pFuture := by
  decide

/-- C1 amended: for a non-author viewer, `PostDetailView.get_object`
resolves the post by id and yields `Http404` exactly when `is_published`
is false; `pub_date` and the category's publication flag are not
consulted, so a future-dated or unpublished-category post is served
whenever `is_published` holds. -/
theorem post_detail_404_iff_unpublished_for_non_author
    (s : Store) (viewer : Viewer) (pk : Nat) (p : Post)
    (hfind : findPost s.posts pk = some p)
    (hauthor : isViewerAuthor viewer p.author = false) :
    postDetailGetObject s viewer pk =
      (if p.is_published then .ok p else .notFound) := by
  unfold postDetailGetObject
  rw [hfind]
  dsimp only
  rw [hauthor]
  cases hp : p.is_published <;> simp

/-- Witness for the amended C1 theorem at a concrete input. -/
theorem post_detail_404_iff_unpublished_for_non_author_witness :
    postDetailGetObject storeDetail (.auth bob) 1 = .ok pFuture := by
  have h := post_detail_404_iff_unpublished_for_non_author storeDetail
    (.auth bob) 1 pFuture (by decide) (by decide)
  simpa [pFuture] using h

/-- The profile listing as claim C2 states it, written from the spec's
words for comparison with the code: the owner (matched by username) sees
all the profile user's posts, any other viewer exactly those passing the
public visibility rule. -/
def profileListingClaim (now : Nat) (s : Store) (viewer : Viewer)
    (uname : String) : Resp (List Post) :=
  match findUser s.users uname with
  | none => .notFound
  | some user =>
    if viewerUsernameIs viewer user.username then
      .ok (s.posts.filter (fun p => p.author == user.id))
    else
      .ok (s.posts.filter (fun p =>
        p.author == user.id && postPubliclyVisibleSpec now s.categories p))

/-- Alice's category-less post, published and past-dated. -/
def pNoCat : Post :=
  { id := 3, author := 1, pub_date := 0, is_published := true, category := none }

/-- Alice's future-dated published post in the published category. -/
def pFutTech : Post :=
  { id := 4, author := 1, pub_date := 9, is_published := true,
    category := some 1 }

/-- Store exercising the profile listing. -/
def storeProfile : Store :=
  { users := [alice, bob], categories := [catTech],
    posts := [pNoCat, pFutTech], comments := [] }

/-- C2 is false on the code: at time 5, bob viewing alice's profile should,
per the claim, see exactly the publicly visible posts — the category-less
past post but not the future-dated one — whereas
`ProfileListView.get_queryset` returns exactly the opposite: it applies no
`pub_date` condition and its `category__is_published=True` join drops
category-less posts. -/
theorem profile_listing_differs_from_claimed_visibility :
    profileListingClaim 5 storeProfile (.auth bob) "alice" = .ok [pNoCat] ∧
    profileQueryset storeProfile (.auth bob) "alice" = .ok [pFutTech] := by
  decide

/-- C2 amended: the profile listing resolves the user by username; the
owner (authenticated viewer with equal username) receives all the user's
posts, while any other viewer receives exactly the user's posts with
`is_published` true and an existing published category — future-dated
posts included and category-less posts excluded, since no `pub_date`
condition is applied.  The listing is ordered by `pub_date` descending
(model default ordering) and paginated at 10 per page. -/
theorem profile_listing_membership_order_pagination
    (s : Store) (viewer : Viewer) (uname : String) (user : User)
    (hfind : findUser s.users uname = some user) :
    ∃ xs, profileListFull s viewer uname = .ok xs ∧
      List.Sorted pubDateGe xs ∧
      (∀ page, profilePage s viewer uname page = .ok (paginate 10 page xs)) ∧
      (∀ p, p ∈ xs ↔ p ∈ s.posts ∧ p.author = user.id ∧
        (viewerUsernameIs viewer user.username = true ∨
          (p.is_published = true ∧
            categoryPublishedJoin s.categories p = true))) := by
  cases hv : viewerUsernameIs viewer user.username
  · have hfull : profileListFull s viewer uname =
        .ok (postDefaultOrder (s.posts.filter (fun p =>
          p.author == user.id && p.is_published &&
            categoryPublishedJoin s.categories p))) := by
      simp [profileListFull, profileQueryset, hfind, hv]
    refine ⟨_, hfull, ?_, ?_, ?_⟩
    · exact List.sorted_insertionSort pubDateGe _
    · intro page
      simp [profilePage, hfull]
    · intro p
      simp [postDefaultOrder, List.mem_insertionSort, List.mem_filter, hv,
        and_assoc]
  · have hfull : profileListFull s viewer uname =
        .ok (postDefaultOrder (s.posts.filter (fun p =>
          p.author == user.id))) := by
      simp [profileListFull, profileQueryset, hfind, hv]
    refine ⟨_, hfull, ?_, ?_, ?_⟩
    · exact List.sorted_insertionSort pubDateGe _
    · intro page
      simp [profilePage, hfull]
    · intro p
      simp [postDefaultOrder, List.mem_insertionSort, List.mem_filter, hv]

/-- Witness for the amended C2 theorem at a concrete input. -/
theorem profile_listing_membership_order_pagination_witness :
    ∃ xs, profileListFull storeProfile (.auth bob) "alice" = .ok xs ∧
      List.Sorted pubDateGe xs ∧
      (∀ page, profilePage storeProfile (.auth bob) "alice" page =
        .ok (paginate 10 page xs)) ∧
      (∀ p, p ∈ xs ↔ p ∈ storeProfile.posts ∧ p.author = alice.id ∧
        (viewerUsernameIs (.auth bob) alice.username = true ∨
          (p.is_published = true ∧
            categoryPublishedJoin storeProfile.categories p = true))) :=
  profile_listing_membership_order_pagination storeProfile (.auth bob)
    "alice" alice (by decide)

/-- The index listing as claim C3 states it, written from the spec's words
for comparison with the code: all posts publicly visible at the current
request time, ordered by `pub_date` descending. -/
def indexListingClaim (now : Nat) (s : Store) : List Post :=
  orderByPubDateDesc
    (s.posts.filter (postPubliclyVisibleSpec now s.categories))

/-- Store exercising the index listing. -/
def storeIndex : Store :=
  { users := [alice], categories := [catTech], posts := [pNoCat],
    comments := [] }

/-- C3 is false on the code: at time 5 the category-less post `pNoCat` is
publicly visible by the claim's rule ("posts with no category are included
when the other conditions hold"), yet `PostListView.queryset` returns the
empty listing, because its `category__is_published=True` lookup is an inner
join that drops posts with a NULL category. -/
theorem index_drops_category_less_posts :
    postPubliclyVisibleSpec 5 storeIndex.categories pNoCat = true ∧
    indexListingClaim 5 storeIndex = [pNoCat] ∧
    indexList 5 storeIndex = [] := by
  decide

/-- Membership in the index listing unfolds to the three stored filter
conditions. -/
lemma mem_indexList_iff (loadTime : Nat) (s : Store) (p : Post) :
    p ∈ indexList loadTime s ↔ p ∈ s.posts ∧ p.pub_date < loadTime ∧
      p.is_published = true ∧
      categoryPublishedJoin s.categories p = true := by
  simp [indexList, orderByPubDateDesc, List.mem_insertionSort,
    postListQueryset, List.mem_filter, and_assoc]

/-- C3 amended: the index listing returns exactly the posts with
`is_published` true, `pub_date` strictly before the time captured when the
module was loaded, and an existing published category — category-less
posts are excluded — ordered by `pub_date` descending and paginated at 10
per page. -/
theorem index_membership_order_pagination (loadTime : Nat) (s : Store) :
    List.Sorted pubDateGe (indexList loadTime s) ∧
    (∀ page, indexPage loadTime s page =
      paginate 10 page (indexList loadTime s)) ∧
    (∀ p, p ∈ indexList loadTime s ↔ p ∈ s.posts ∧ p.pub_date < loadTime ∧
      p.is_published = true ∧
      categoryPublishedJoin s.categories p = true) := by
  exact ⟨List.sorted_insertionSort pubDateGe _, fun page => rfl,
    mem_indexList_iff loadTime s⟩

/-- A page slice only contains elements of the underlying listing. -/
lemma mem_of_mem_paginate {per page : Nat} {xs : List Post} {p : Post}
    (h : p ∈ paginate per page xs) : p ∈ xs := by
  unfold paginate at h
  exact List.mem_of_mem_drop (List.mem_of_mem_take h)

/-- A post passing the category-restricted filter at request time `now` is
publicly visible in the spec's sense. -/
lemma publiclyVisible_of_slugJoin (now : Nat) (cats : List Category)
    (slug : String) (p : Post) (hlt : p.pub_date < now)
    (hpub : p.is_published = true)
    (hj : categorySlugPublishedJoin cats slug p = true) :
    postPubliclyVisibleSpec now cats p = true := by
  unfold categorySlugPublishedJoin at hj
  unfold postPubliclyVisibleSpec
  cases hc : p.category with
  | none =>
    rw [hc] at hj
    exact absurd hj (by simp)
  | some cid =>
    rw [hc] at hj
    dsimp only at hj ⊢
    cases hfc : findCategoryById cats cid with
    | none =>
      rw [hfc] at hj
      exact absurd hj (by simp)
    | some c =>
      rw [hfc] at hj
      dsimp only at hj ⊢
      simp only [Bool.and_eq_true, beq_iff_eq] at hj
      simp only [Bool.and_eq_true, decide_eq_true_eq]
      exact ⟨⟨hpub, Nat.le_of_lt hlt⟩, hj.2⟩

/-- C4: the category page resolves the category by slug and yields `Http404`
when no published category carries the slug (absent or unpublished alike);
any post on a served category page is publicly visible and belongs, through
the join, to a published category with that slug; and every post on the
index listing has a published category, so posts of an unpublished category
never reach the index even when individually published. -/
theorem category_404_and_visible_posts_only (now : Nat) (s : Store)
    (slug : String) :
    ((∀ c ∈ s.categories, ¬(c.slug = slug ∧ c.is_published = true)) →
      ∀ page, categoryPage now s slug page = .notFound)
  ∧ (∀ page cat xs, categoryPage now s slug page = .ok (cat, xs) →
      ∀ p ∈ xs, postPubliclyVisibleSpec now s.categories p = true ∧
        categorySlugPublishedJoin s.categories slug p = true)
  ∧ (∀ loadTime p cid c, p ∈ s.posts → p.category = some cid →
      findCategoryById s.categories cid = some c → c.is_published = false →
      p ∉ indexList loadTime s) := by
  refine ⟨?_, ?_, ?_⟩
  · intro h page
    have hnone : categoryGetOr404 s slug = none := by
      unfold categoryGetOr404
      rw [List.find?_eq_none]
      intro c hc
      simp only [Bool.and_eq_true, beq_iff_eq]
      exact h c hc
    simp [categoryPage, hnone]
  · intro page cat xs hok p hp
    have hlist : p ∈ categoryQueryset now s slug := by
      unfold categoryPage at hok
      cases hfind : categoryGetOr404 s slug with
      | none => rw [hfind] at hok; exact absurd hok (by simp)
      | some c =>
        rw [hfind] at hok
        simp only [Resp.ok.injEq, Prod.mk.injEq] at hok
        rw [← hok.2] at hp
        have := mem_of_mem_paginate hp
        simpa [categoryListFull, postDefaultOrder,
          List.mem_insertionSort] using this
    rw [categoryQueryset, List.mem_filter] at hlist
    obtain ⟨-, hconds⟩ := hlist
    simp only [Bool.and_eq_true, decide_eq_true_eq] at hconds
    exact ⟨publiclyVisible_of_slugJoin now s.categories slug p
      hconds.1.1 hconds.1.2 hconds.2, hconds.2⟩
  · intro loadTime p cid c _hp hcat hfc hunpub hmem
    have hjoin : categoryPublishedJoin s.categories p = true :=
      ((mem_indexList_iff loadTime s p).mp hmem).2.2.2
    rw [categoryPublishedJoin, hcat] at hjoin
    dsimp only at hjoin
    rw [hfc] at hjoin
    dsimp only at hjoin
    rw [hunpub] at hjoin
    exact absurd hjoin (by simp)

/-- A published post of yesterday (`pub_date` 4 against a current time of
5) in the published category `tech`. -/
def pTechYesterday : Post :=
  { id := 5, author := 1, pub_date := 4, is_published := true,
    category := some 1 }

/-- A published past post in the unpublished category `attic`. -/
def pAttic : Post :=
  { id := 6, author := 1, pub_date := 0, is_published := true,
    category := some 2 }

/-- Store exercising the category listing. -/
def storeCategory : Store :=
  { users := [alice], categories := [catTech, catAttic],
    posts := [pTechYesterday, pAttic], comments := [] }

/-- Witness for the C4 theorem at concrete inputs: an absent slug 404s, a
post served on the `tech` page is publicly visible with the matching
published category, and the published post of the unpublished category
`attic` is missing from the index listing. -/
theorem category_404_and_visible_posts_only_witness :
    (∀ page, categoryPage 5 storeCategory "ghost" page = .notFound) ∧
    (postPubliclyVisibleSpec 5 storeCategory.categories pTechYesterday = true ∧
      categorySlugPublishedJoin storeCategory.categories "tech"
        pTechYesterday = true) ∧
    pAttic ∉ indexList 5 storeCategory := by
  refine ⟨?_, ?_, ?_⟩
  · exact fun page =>
      (category_404_and_visible_posts_only 5 storeCategory "ghost").1
        (by decide) page
  · exact (category_404_and_visible_posts_only 5 storeCategory "tech").2.1
      1 catTech [pTechYesterday] (by decide) pTechYesterday (by decide)
  · exact (category_404_and_visible_posts_only 5 storeCategory "tech").2.2
      5 pAttic 2 catAttic (by decide) (by decide) (by decide) (by decide)

/-- C5: a viewer who is not the author — anonymous or authenticated — who
attempts the edit or delete action on a post or a comment is answered with
a redirect to `blog:post_detail` for the post (for a comment, its parent
post), never with an HTTP error, and the store is left unchanged. -/
theorem non_author_edit_delete_redirects_and_preserves_store
    (s : Store) (viewer : Viewer) :
    (∀ p f, findPost s.posts p.id = some p →
      isViewerAuthor viewer p.author = false →
      postUpdateRun s viewer p.id f = (.redirectPostDetail p.id, s) ∧
      postDeleteRun s viewer p.id = (.redirectPostDetail p.id, s))
  ∧ (∀ c g, findComment s.comments c.id c.post = some c →
      isViewerAuthor viewer c.author = false →
      commentUpdateRun s viewer c.post c.id g =
        (.redirectPostDetail c.post, s) ∧
      commentDeleteRun s viewer c.post c.id =
        (.redirectPostDetail c.post, s)) := by
  constructor
  · intro p f hfind hnota
    have hdisp : postEditDispatch s viewer p.id = .redirectPostDetail p.id := by
      cases viewer with
      | anon => rfl
      | auth u =>
        unfold postEditDispatch
        rw [hfind]
        dsimp only
        rw [show (p.author == u.id) = false from hnota]
        rfl
    exact ⟨by simp [postUpdateRun, hdisp], by simp [postDeleteRun, hdisp]⟩
  · intro c g hfind hnota
    have hdisp : commentEditDispatch s viewer c.post c.id =
        .redirectPostDetail c.post := by
      cases viewer with
      | anon => rfl
      | auth u =>
        unfold commentEditDispatch
        rw [hfind]
        dsimp only
        rw [show (c.author == u.id) = false from hnota]
        rfl
    exact ⟨by simp [commentUpdateRun, hdisp],
      by simp [commentDeleteRun, hdisp]⟩

/-- Alice's comment on the post `pFuture`. -/
def cAlice : Comment :=
  { id := 11, text := "hi", author := 1, post := 1, created_at := 3 }

/-- Store exercising the comment guards. -/
def storeComments : Store :=
  { users := [alice, bob], categories := [catTech], posts := [pFuture],
    comments := [cAlice] }

/-- Witness for the C5 theorem at a concrete input: bob attempting to edit
or delete alice's post and comment is redirected to the post detail page
and nothing changes. -/
theorem non_author_edit_delete_redirects_and_preserves_store_witness :
    (postUpdateRun storeComments (.auth bob) pFuture.id id =
      (.redirectPostDetail pFuture.id, storeComments) ∧
     postDeleteRun storeComments (.auth bob) pFuture.id =
      (.redirectPostDetail pFuture.id, storeComments)) ∧
    (commentUpdateRun storeComments (.auth bob) cAlice.post cAlice.id id =
      (.redirectPostDetail cAlice.post, storeComments) ∧
     commentDeleteRun storeComments (.auth bob) cAlice.post cAlice.id =
      (.redirectPostDetail cAlice.post, storeComments)) :=
  ⟨(non_author_edit_delete_redirects_and_preserves_store storeComments
      (.auth bob)).1 pFuture id (by decide) (by decide),
   (non_author_edit_delete_redirects_and_preserves_store storeComments
      (.auth bob)).2 cAlice id (by decide) (by decide)⟩

/-- C6: creating a comment on post id `pk` 404s when no such post exists
(for any viewer: the lookup sits in `dispatch`, before the login check),
sends an unauthenticated viewer to login, and on success stores a comment
whose `author` is the requesting user and whose `post` is the URL's `pk`,
whatever author or post values the form body attempted. -/
theorem comment_create_requires_auth_and_binds_author_post
    (s : Store) (pk newId now : Nat) (body : CommentFormBody) :
    (∀ viewer, findPost s.posts pk = none →
      commentCreateRun s viewer pk body newId now = (.notFound, s))
  ∧ (∀ p, findPost s.posts pk = some p →
      commentCreateRun s .anon pk body newId now = (.loginRedirect, s))
  ∧ (∀ u p, findPost s.posts pk = some p →
      ∃ c, commentCreateRun s (.auth u) pk body newId now =
        (.ok c, { s with comments := s.comments ++ [c] }) ∧
        c.author = u.id ∧ c.post = pk ∧ c.text = body.text) := by
  refine ⟨?_, ?_, ?_⟩
  · intro viewer hnone
    simp [commentCreateRun, hnone]
  · intro p hsome
    simp [commentCreateRun, hsome]
  · intro u p hsome
    refine ⟨commentFormValid u pk (commentInstanceOfBody body newId now),
      ?_, rfl, rfl, rfl⟩
    simp [commentCreateRun, hsome]

/-- A form body attempting to smuggle in a foreign author and post. -/
def bodySneaky : CommentFormBody :=
  { text := "hello", authorAttempt := some 99, postAttempt := some 42 }

/-- Witness for the C6 theorem at the spec's scenario: alice comments on
post id 5; the stored comment carries her id and post 5 despite the body's
attempted values. -/
theorem comment_create_requires_auth_and_binds_author_post_witness :
    ∃ c, commentCreateRun storeCategory (.auth alice) 5 bodySneaky 7 6 =
      (.ok c, { storeCategory with
        comments := storeCategory.comments ++ [c] }) ∧
      c.author = alice.id ∧ c.post = 5 ∧ c.text = bodySneaky.text :=
  (comment_create_requires_auth_and_binds_author_post storeCategory 5 7 6
    bodySneaky).2.2 alice pTechYesterday (by decide)

/-- C7 is false on the code: bob, authenticated and with a username
different from alice's, attempting the profile-edit action on alice is
answered with `PermissionDenied` (HTTP 403), not a redirect —
`OnlyUserMixin` overrides no `handle_no_permission`, so the `AccessMixin`
default raises for an authenticated viewer. -/
theorem profile_edit_by_non_owner_forbidden_not_redirect :
    bob.username ≠ alice.username ∧
    profileUpdateDispatch storeProfile (.auth bob) "alice" = .forbidden := by
  decide

/-- C7 amended: an authenticated viewer whose username differs from that of
an existing profile user is denied the profile-edit action with HTTP 403
(`PermissionDenied`); only the post/comment guard (`OnlyAuthorMixin`) uses
the soft redirect. -/
theorem profile_edit_denied_with_403 (s : Store) (vu u : User)
    (uname : String) (hfind : findUser s.users uname = some u)
    (hne : (u.username == vu.username) = false) :
    profileUpdateDispatch s (.auth vu) uname = .forbidden := by
  unfold profileUpdateDispatch
  rw [hfind]
  dsimp only
  simp [hne]

/-- Witness for the amended C7 theorem at a concrete input. -/
theorem profile_edit_denied_with_403_witness :
    profileUpdateDispatch storeProfile (.auth bob) "alice" = .forbidden :=
  profile_edit_denied_with_403 storeProfile bob alice "alice"
    (by decide) (by decide)

/-- A post published between module load (time 10) and a later request
(time 20). -/
def pLate : Post :=
  { id := 7, author := 1, pub_date := 15, is_published := true,
    category := some 1 }

/-- Store exercising the load-time cutoff of the index listing. -/
def storeLate : Store :=
  { users := [alice], categories := [catTech], posts := [pLate],
    comments := [] }

/-- C8: the code violates the claim.  `PostListView.queryset` is a class
attribute, so `date_now()` runs once when the module loads; every later
request reuses that cutoff.  Two evaluations at different request times
are always identical, and the post `pLate` (`pub_date` 15), publicly
visible at request time 20, is missing from the index served by a process
loaded at time 10 — while `CategoryListView.get_queryset`, which calls
`date_now()` per request, does return it. -/
theorem index_cutoff_fixed_at_load_time :
    (∀ loadTime t1 t2 s page,
      indexPageAtRequest loadTime t1 s page =
        indexPageAtRequest loadTime t2 s page)
  ∧ postPubliclyVisibleSpec 20 storeLate.categories pLate = true
  ∧ pLate ∉ indexPageAtRequest 10 20 storeLate 1
  ∧ pLate ∈ categoryQueryset 20 storeLate "tech" := by
  exact ⟨fun _ _ _ _ _ => rfl, by decide, by decide, by decide⟩

/-- C9: the `'post'` context entry of the profile page contains exactly the
posts authored by the profile user — no publication, date or category
filtering — and is the same for every viewer, independently of the
filtered `object_list`. -/
theorem profile_context_post_all_authored (s : Store) (viewer : Viewer)
    (uname : String) (u : User)
    (hfind : findUser s.users uname = some u) :
    (∀ v2 : Viewer, profileContextPost s viewer uname =
      profileContextPost s v2 uname)
  ∧ ∃ xs, profileContextPost s viewer uname = .ok xs ∧
      ∀ p, p ∈ xs ↔ p ∈ s.posts ∧ p.author = u.id := by
  refine ⟨fun v2 => rfl, s.posts.filter (fun p => p.author == u.id), ?_, ?_⟩
  · simp [profileContextPost, hfind]
  · intro p
    simp [List.mem_filter]

/-- Witness for the C9 theorem at a concrete input: whatever bob (not the
owner) is shown as `object_list`, the `'post'` context entry of alice's
profile holds all her posts, the future-dated one included. -/
theorem profile_context_post_all_authored_witness :
    (∀ v2 : Viewer, profileContextPost storeProfile (.auth bob) "alice" =
      profileContextPost storeProfile v2 "alice")
  ∧ ∃ xs, profileContextPost storeProfile (.auth bob) "alice" = .ok xs ∧
      ∀ p, p ∈ xs ↔ p ∈ storeProfile.posts ∧ p.author = alice.id :=
  profile_context_post_all_authored storeProfile (.auth bob) "alice" alice
    (by decide)

/-- C10: when a comment with the URL's comment id exists but references a
different post than the URL's post id, the two-parameter lookup finds no
row, so the edit and delete views answer `Http404` for every authenticated
viewer — the comment's own author included, hence before any ownership
decision — and the store is untouched. -/
theorem comment_edit_delete_404_on_mismatched_post (s : Store) (c : Comment)
    (pk : Nat) (_hc : c ∈ s.comments)
    (huniq : ∀ c' ∈ s.comments, c'.id = c.id → c' = c)
    (hne : c.post ≠ pk) :
    findComment s.comments c.id pk = none ∧
    (∀ u f, commentUpdateRun s (.auth u) pk c.id f = (.notFound, s)) ∧
    (∀ u, commentDeleteRun s (.auth u) pk c.id = (.notFound, s)) := by
  have hfind : findComment s.comments c.id pk = none := by
    unfold findComment
    rw [List.find?_eq_none]
    intro x hx
    simp only [Bool.and_eq_true, beq_iff_eq, not_and]
    intro hid
    rw [huniq x hx hid]
    exact hne
  refine ⟨hfind, ?_, ?_⟩
  · intro u f
    simp [commentUpdateRun, commentEditDispatch, hfind]
  · intro u
    simp [commentDeleteRun, commentEditDispatch, hfind]

/-- Witness for the C10 theorem at a concrete input: alice's comment 11
lives on post 1; resolving it under post id 2 404s even for alice. -/
theorem comment_edit_delete_404_on_mismatched_post_witness :
    findComment storeComments.comments cAlice.id 2 = none ∧
    (∀ u f, commentUpdateRun storeComments (.auth u) 2 cAlice.id f =
      (.notFound, storeComments)) ∧
    (∀ u, commentDeleteRun storeComments (.auth u) 2 cAlice.id =
      (.notFound, storeComments)) :=
  comment_edit_delete_404_on_mismatched_post storeComments cAlice 2
    (by decide) (by decide) (by decide)

end Blogicum
